import Mathlib

/-!
Verification development for the product-resolution engine in
rastrear_saojoao.py (farmaciasbomlar/rastreador-sao-joao).

Shallow embedding conventions:
* Python strings are Lean String values; the Python string methods used by
  the code (lower, upper, strip, split, isdigit) are modelled by pyLower,
  pyUpper, pyStrip, pyWords/splitChar, pyIsDigit.  lower and upper are
  modelled on the ASCII and Latin-1 ranges, which cover every character this
  program manipulates.
* Python dicts with string keys and string values are association lists
  (Dict below); dict display order is list order, as in CPython.
* JSON numbers (product prices) are rationals.
* The two network searches are fields of a Catalog value; each returns
  Except String (List Product), where an error models a raised exception
  (requests/json failures).  The batch layer abstracts the whole resolution
  call as a resolver of type String -> String -> Except String Dict, an
  error again modelling a raised exception.
* pandas DataFrames are a column-name list plus rows of cells; a cell is
  Option String, none modelling NaN/None (both of which str()+strip+lower
  turn into values that _limpa maps to the empty string, exactly as none
  does here).
-/

/-- Models CPython str.lower for ASCII and the Latin-1 letter block
(0xC0-0xDE map to 0xE0-0xFE, with the multiplication sign 0xD7 excluded). -/
def charLower (c : Char) : Char :=
  if 65 ≤ c.toNat ∧ c.toNat ≤ 90 then Char.ofNat (c.toNat + 32)
  else if 0xC0 ≤ c.toNat ∧ c.toNat ≤ 0xDE ∧ c.toNat ≠ 0xD7 then Char.ofNat (c.toNat + 32)
  else c

def pyLower (s : String) : String := String.mk (s.toList.map charLower)

/-- Models CPython str.upper for ASCII and the Latin-1 letter block
(0xE0-0xFE map to 0xC0-0xDE, with the division sign 0xF7 excluded; the
two Latin-1 characters whose uppercase leaves Latin-1 are left unchanged). -/
def charUpper (c : Char) : Char :=
  if 97 ≤ c.toNat ∧ c.toNat ≤ 122 then Char.ofNat (c.toNat - 32)
  else if 0xE0 ≤ c.toNat ∧ c.toNat ≤ 0xFE ∧ c.toNat ≠ 0xF7 then Char.ofNat (c.toNat - 32)
  else c

def pyUpper (s : String) : String := String.mk (s.toList.map charUpper)

/-- Models CPython str.strip (no argument): drop whitespace from both ends. -/
def pyStrip (s : String) : String :=
  String.mk (((s.toList.dropWhile Char.isWhitespace).reverse.dropWhile
    Char.isWhitespace).reverse)

/-- Models CPython str.isdigit on the ASCII digits: nonempty and all digits. -/
def pyIsDigit (s : String) : Bool :=
  !s.toList.isEmpty && s.toList.all Char.isDigit

/-- Accumulator pass for pyWords: splits on whitespace runs, dropping empty
pieces, which is exactly re.split of one-or-more-whitespace followed by
filtering out falsy tokens. -/
def pyWordsAux : List Char → List Char → List String
  | acc, [] => if acc.isEmpty then [] else [String.mk acc.reverse]
  | acc, c :: rest =>
    if c.isWhitespace then
      if acc.isEmpty then pyWordsAux [] rest
      else String.mk acc.reverse :: pyWordsAux [] rest
    else pyWordsAux (c :: acc) rest

def pyWords (s : String) : List String := pyWordsAux [] s.toList

/-- Accumulator pass for splitChar. -/
def splitCharAux (sep : Char) : List Char → List Char → List String
  | acc, [] => [String.mk acc.reverse]
  | acc, c :: rest =>
    if c == sep then String.mk acc.reverse :: splitCharAux sep [] rest
    else splitCharAux sep (c :: acc) rest

/-- Models CPython str.split with a one-character separator. -/
def splitChar (sep : Char) (s : String) : List String :=
  splitCharAux sep [] s.toList

/-- Is tok a contiguous substring of hay (the Python `in` operator on str)? -/
def listHasSub (hay tok : List Char) : Bool :=
  tok.isPrefixOf hay ||
    match hay with
    | [] => false
    | _ :: t => listHasSub t tok

def strHas (hay tok : String) : Bool := listHasSub hay.toList tok.toList

/-- Python dicts with string keys/values, in display order. -/
abbrev Dict := List (String × String)

def dget (d : Dict) (k : String) : Option String :=
  (d.find? (fun kv => kv.1 == k)).map (fun kv => kv.2)

/-- commertialOffer object (field name as spelled by the catalog API). -/
structure Offer where
  Price : Option ℚ := none
deriving DecidableEq, Repr

structure Seller where
  commertialOffer : Option Offer := none
deriving DecidableEq, Repr

structure Item where
  sellers : List Seller := []
deriving DecidableEq, Repr

/-- One catalog record, with the fields rastrear_saojoao.py reads.  A
categoryTree node is its "name" entry: none when the node is not a dict or
has no name. -/
structure Product where
  productName : Option String := none
  linkText : Option String := none
  categoryTree : Option (List (Option String)) := none
  categories : List String := []
  items : List Item := []
deriving DecidableEq, Repr

def BASE : String := "https://www.saojoaofarmacias.com.br"

/-- _price_from_product: prod["items"][0]["sellers"][0]["commertialOffer"]
.get("Price") or 0, with every lookup failure caught and mapped to 0. -/
def _price_from_product (prod : Product) : ℚ :=
  match prod.items with
  | [] => 0
  | it :: _ =>
    match it.sellers with
    | [] => 0
    | s :: _ =>
      match s.commertialOffer with
      | none => 0
      | some off => off.Price.getD 0

/-- Insert a thousands separator every three digits; the input and output
digit lists are least-significant first. -/
def group3 : List Char → List Char
  | a :: b :: c :: d :: rest => a :: b :: c :: '.' :: group3 (d :: rest)
  | ds => ds

def fmtGrouped (n : Nat) : String :=
  String.mk ((group3 ((Nat.toDigits 10 n).reverse)).reverse)

def twoDigits (n : Nat) : String :=
  String.mk (if n < 10 then '0' :: Nat.toDigits 10 n else Nat.toDigits 10 n)

/-- _preco_br on a numeric input: format with two decimals, a comma as the
decimal separator and dots as thousands separators (the Python code formats
with the en_US pattern and swaps the separators).  Rounding to cents is
modelled as round-half-up; the code rounds the float half-even, which agrees
on every value without an exact half cent.  The except branch of _preco_br
(non-numeric input) is unreachable here because _price_from_product always
produces a number. -/
def _preco_br (v : ℚ) : String :=
  let cents : Int := ⌊v * 100 + 1 / 2⌋
  let a := cents.natAbs
  let core := fmtGrouped (a / 100) ++ "," ++ twoDigits (a % 100)
  "R$ " ++ (if cents < 0 then "-" ++ core else core)

/-- Drop leading and trailing slashes: str.strip with argument "/". -/
def stripSlashes (s : String) : String :=
  String.mk (((s.toList.dropWhile (· == '/')).reverse.dropWhile (· == '/')).reverse)

/-- _breadcrumb: prefer the categoryTree names (truthy names only, dropping
nodes equal to the home marker after strip+lower); otherwise use the longest
slash-delimited categories path (first maximum, as Python max), splitting on
slashes, dropping segments equal (lowered, unstripped) to the home marker and
mapping hyphens to spaces with a strip; the em-dash when nothing usable. -/
def _breadcrumb (prod : Product) : String :=
  let fromTree : Option String :=
    match prod.categoryTree with
    | some tree =>
      if tree.isEmpty then none
      else
        let nomes := tree.filterMap (fun n =>
          n.bind (fun s => if s == "" then none else some s))
        let nomes := nomes.filter (fun n => pyLower (pyStrip n) != "início")
        if nomes.isEmpty then none else some (String.intercalate " > " nomes)
    | none => none
  match fromTree with
  | some r => r
  | none =>
    match prod.categories with
    | [] => "—"
    | c :: cs =>
      let caminho := stripSlashes (cs.foldl
        (fun b x => if b.length < x.length then x else b) c)
      let partes := ((splitChar '/' caminho).filter
          (fun p => pyLower p != "início")).map
        (fun p => pyStrip (String.mk (p.toList.map
          (fun ch => if ch == '-' then ' ' else ch))))
      if partes.isEmpty then "—" else String.intercalate " > " partes

/-- Percent-encoding of one character as urllib.parse.quote does it:
ASCII alphanumerics, underscore, dot, tilde, hyphen and slash pass through,
everything else becomes percent-escaped UTF-8 bytes in uppercase hex. -/
def utf8Bytes (c : Char) : List Nat :=
  let n := c.toNat
  if n < 0x80 then [n]
  else if n < 0x800 then [0xC0 + n / 64, 0x80 + n % 64]
  else if n < 0x10000 then [0xE0 + n / 4096, 0x80 + (n / 64) % 64, 0x80 + n % 64]
  else [0xF0 + n / 262144, 0x80 + (n / 4096) % 64, 0x80 + (n / 64) % 64,
    0x80 + n % 64]

def hexUpper (n : Nat) : Char :=
  if n < 10 then Char.ofNat (48 + n) else Char.ofNat (55 + n)

def pyQuoteChar (c : Char) : String :=
  if c.isAlphanum || c == '_' || c == '.' || c == '~' || c == '-' || c == '/' then
    String.mk [c]
  else
    String.join ((utf8Bytes c).map (fun b =>
      String.mk ['%', hexUpper (b / 16), hexUpper (b % 16)]))

def pyQuote (s : String) : String := String.join (s.toList.map pyQuoteChar)

/-- _link_from_product: use linkText when truthy, otherwise a slug derived
from the display name (lower, strip, spaces to hyphens, percent-quoted). -/
def _link_from_product (prod : Product) : String :=
  let link_text := prod.linkText.getD ""
  let link_text :=
    if link_text == "" then
      pyQuote (String.mk ((pyStrip (pyLower (prod.productName.getD ""))).toList.map
        (fun ch => if ch == ' ' then '-' else ch)))
    else link_text
  BASE ++ "/" ++ link_text ++ "/p"

def bmName (p : Product) : String := p.productName.getD ""

/-- Number of reference tokens (whitespace-split, lowered) occurring as
substrings of the lowered display name: the score of _best_match. -/
def bmScore (ref : String) (p : Product) : Nat :=
  ((pyWords (pyLower ref)).filter (fun t => strHas (pyLower (bmName p)) t)).length

/-- The strict order of the Python sort key (-score, name length): p sorts
strictly before q. -/
def keyLt (ref : String) (p q : Product) : Prop :=
  bmScore ref q < bmScore ref p ∨
    (bmScore ref p = bmScore ref q ∧ (bmName p).length < (bmName q).length)

instance keyLtDec (ref : String) (p q : Product) : Decidable (keyLt ref p q) := by
  unfold keyLt; exact inferInstance

/-- Left fold keeping the earliest element that is minimal for the sort key:
sorted(lista, key=score)[0] of a stable sort is exactly the earliest
key-minimal element, the accumulator is replaced only on a strict win. -/
def pick (ref : String) : Product → List Product → Product
  | b, [] => b
  | b, q :: qs => pick ref (if keyLt ref q b then q else b) qs

def _best_match (lista : List Product) (termo_ref : String) : Option Product :=
  match lista with
  | [] => none
  | p :: ps => some (pick termo_ref p ps)

/-- Python regex word characters, restricted to ASCII and Latin-1 (letters,
digits, underscore, micro sign, ordinal indicators); characters outside this
range do not occur in this programs inputs. -/
def pyWordChar (c : Char) : Bool :=
  c.isAlphanum || c == '_' || c.toNat == 0xB5 || c.toNat == 0xAA ||
    c.toNat == 0xBA ||
    (0xC0 ≤ c.toNat && c.toNat ≤ 0xFF && c.toNat != 0xD7 && c.toNat != 0xF7)

/-- Word boundary after a match: end of input or a non-word character. -/
def boundaryAfter (cs : List Char) : Bool :=
  match cs with
  | [] => true
  | c :: _ => !pyWordChar c

/-- Try the unit alternatives, in the pattern order, at the start of cs.  An
alternative is a literal with an optional trailing "s" (the regex optional
quantifier, greedy: with the "s" first).  A successful alternative must be
followed by a word boundary.  Returns the number of characters consumed. -/
def tryAlts : List (String × Bool) → List Char → Option Nat
  | [], _ => none
  | (u, optS) :: restAlts, cs =>
    let ul := u.toList
    if optS && (ul ++ ['s']).isPrefixOf cs && boundaryAfter (cs.drop (ul.length + 1)) then
      some (ul.length + 1)
    else if ul.isPrefixOf cs && boundaryAfter (cs.drop ul.length) then
      some ul.length
    else tryAlts restAlts cs

/-- Try the whole pattern (one-or-more digits, an optional single whitespace,
a unit alternative, a trailing word boundary) at the start of cs.  The digit
run is effectively maximal: giving digits back leaves the next character a
digit, which no alternative can start with.  The optional whitespace is
greedy with backtracking.  Returns the number of characters consumed. -/
def tryMatchAt (alts : List (String × Bool)) (cs : List Char) : Option Nat :=
  let d := (cs.takeWhile Char.isDigit).length
  if d = 0 then none
  else
    let rest := cs.drop d
    let withWs : Option Nat :=
      match rest with
      | c :: rest2 =>
        if c.isWhitespace then (tryAlts alts rest2).map (fun k => d + 1 + k)
        else none
      | [] => none
    match withWs with
    | some n => some n
    | none => (tryAlts alts rest).map (fun k => d + k)

/-- re.sub of the unit pattern with a single space: scan left to right over
the original text, replacing each non-overlapping leftmost match and
continuing right after it.  The leading word boundary holds when the
previous character (in the original text) is not a word character; after a
match the previous character is the final unit letter, a word character. -/
def scanSubGo (alts : List (String × Bool)) : Nat → Bool → List Char → List Char
  | 0, _, cs => cs
  | _ + 1, _, [] => []
  | fuel + 1, prevW, c :: rest =>
    if !prevW then
      match tryMatchAt alts (c :: rest) with
      | some n => ' ' :: scanSubGo alts fuel true (rest.drop (n - 1))
      | none => c :: scanSubGo alts fuel (pyWordChar c) rest
    else c :: scanSubGo alts fuel (pyWordChar c) rest

/-- The scan driver.  Every step of scanSubGo consumes at least one
character, so a fuel of one more than the text length is never exhausted and
the fuel-out branch (which returns the rest unscanned) is unreachable. -/
def scanSub (alts : List (String × Bool)) (prevW : Bool) (cs : List Char) :
    List Char :=
  scanSubGo alts (cs.length + 1) prevW cs

/-- Accumulator pass for collapseWs: the flag records whether the previous
character was whitespace (in which case this run has already emitted its
single space). -/
def collapseWsAux : Bool → List Char → List Char
  | _, [] => []
  | prevWs, c :: rest =>
    if c.isWhitespace then
      if prevWs then collapseWsAux true rest
      else ' ' :: collapseWsAux true rest
    else c :: collapseWsAux false rest

/-- re.sub of one-or-more whitespace with a single space. -/
def collapseWs (cs : List Char) : List Char := collapseWsAux false cs

/-- The first unit pattern alternatives of _term_simplify, in pattern order. -/
def unitsAlts1 : List (String × Bool) :=
  [("mg", false), ("g", false), ("mcg", false), ("µg", false), ("ml", false),
   ("kg", false), ("l", false)]

/-- The second unit pattern alternatives of _term_simplify, in pattern order;
true marks an optional trailing "s". -/
def unitsAlts2 : List (String × Bool) :=
  [("comprimido", true), ("cp", false), ("cap", true), ("tablete", true)]

/-- _term_simplify: lower the term, strip dosage tokens, strip count tokens,
collapse whitespace and strip; fall back to the original term when the
result is empty. -/
def _term_simplify (term : String) : String :=
  let t := pyLower term
  let t := String.mk (scanSub unitsAlts1 false t.toList)
  let t := String.mk (scanSub unitsAlts2 false t.toList)
  let t := pyStrip (String.mk (collapseWs t.toList))
  if t = "" then term else t

/-- The external catalog: the two remote search shapes.  An error value
models a raised exception (network failure, timeout, malformed body). -/
structure Catalog where
  search_term : String → Except String (List Product)
  search_ean : String → Except String (List Product)

/-- The result a try/except block around one search observes: the candidate
list on success, the empty list when the call raised. -/
def runSearch (r : Except String (List Product)) : List Product :=
  match r with
  | .ok l => l
  | .error _ => []

/-- One search invocation, for stating which searches _consultar performs. -/
inductive SCall where
  | term (t : String)
  | ean (t : String)
deriving DecidableEq, Repr

/-- The not-found result shape of _consultar. -/
def notFoundD (obs : String) : Dict :=
  [("Preco", "Produto não encontrado"), ("Link", ""), ("Classificacao", "—"),
   ("Observacao", obs)]

/-- _consultar, instrumented with the list of search invocations it makes
(in order).  The term search runs first; the code search runs only when the
term search produced nothing and the term is all digits of length at least
eight; the simplified-term search runs only when there are still no
candidates and simplification changed the term; each search fallure is
swallowed as an empty candidate list. -/
def consultarT (cat : Catalog) (termo : String) (nome_ref : String) :
    Dict × List SCall :=
  let t := pyStrip termo
  let produtos := runSearch (cat.search_term t)
  let calls := [SCall.term t]
  let step2 := produtos.isEmpty && pyIsDigit t && decide (8 ≤ t.length)
  let produtos := if step2 then runSearch (cat.search_ean t) else produtos
  let calls := calls ++ (if step2 then [SCall.ean t] else [])
  let t2 := _term_simplify t
  let step3 := produtos.isEmpty && t2 != t
  let produtos := if step3 then runSearch (cat.search_term t2) else produtos
  let calls := calls ++ (if step3 then [SCall.term t2] else [])
  if produtos.isEmpty then (notFoundD "Sem resultados", calls)
  else
    match _best_match produtos (if nome_ref == "" then t else nome_ref) with
    | none => (notFoundD "Sem match", calls)
    | some prod =>
      ([("Preco", _preco_br (_price_from_product prod)),
        ("Link", _link_from_product prod),
        ("Classificacao", _breadcrumb prod),
        ("Observacao", "—")], calls)

def _consultar (cat : Catalog) (termo : String) (nome_ref : String) : Dict :=
  (consultarT cat termo nome_ref).1

/-- A catalog in which every search succeeds with what the original catalog
would have produced after exception swallowing. -/
def totalize (cat : Catalog) : Catalog where
  search_term := fun s => Except.ok (runSearch (cat.search_term s))
  search_ean := fun s => Except.ok (runSearch (cat.search_ean s))

/-- _limpa: None (and NaN, whose str form is "nan") becomes the empty
string; otherwise strip, and map the sentinel spellings of missing values
to the empty string. -/
def _limpa (v : Option String) : String :=
  match v with
  | none => ""
  | some s0 =>
    let s := pyStrip s0
    if pyLower s ∈ (["nan", "none"] : List String) then "" else s

/-- A spreadsheet-like input: column names and rows of cells; a cell is
Option String with none for a missing value. -/
structure DataFrame where
  columns : List String
  rows : List (List (Option String))

/-- row.get(key, ""): the cell under the first column named key, the empty
string default when no column matches. -/
def rowGet (cols : List String) (row : List (Option String)) (key : String) :
    Option String :=
  match cols.findIdx? (fun c => c == key) with
  | some i => row.getD i none
  | none => some ""

/-- The error dict the batch loop builds when the resolution call raises. -/
def erroD (msg : String) : Dict :=
  [("Preco", "Produto não encontrado"), ("Link", ""), ("Classificacao", "—"),
   ("Observacao", "Erro: " ++ msg)]

/-- Run one resolution call under the try/except of the batch loop. -/
def runResolver (resolver : String → String → Except String Dict)
    (t n : String) : Dict :=
  match resolver t n with
  | .ok d => d
  | .error e => erroD e

/-- One iteration of the batch loop of processar_dataframe, for one row,
with the resolution call abstracted as resolver (an error models an
exception escaping _consultar).  The Bool records whether the fixed
inter-row pause (time.sleep) runs after this row: the empty-row short
circuit continues without sleeping. -/
def processRow (resolver : String → String → Except String Dict)
    (cols : List String) (row : List (Option String)) : Dict × Bool :=
  let ean := _limpa (rowGet cols row "EAN")
  let nome := _limpa (rowGet cols row "NOME")
  let termo := if ean == "" then nome else ean
  if termo == "" then
    ([("EAN", ean), ("NOME", nome)] ++ notFoundD "Linha vazia", false)
  else
    let dados0 : Option Dict :=
      if ean == "" then none
      else some (runResolver resolver ean (if nome == "" then ean else nome))
    let dados : Dict :=
      if dados0.isNone ||
          (dados0.bind (fun d => dget d "Preco")) == some "Produto não encontrado" then
        if nome == "" then
          match dados0 with
          | some d => d
          | none => notFoundD "Sem resultados"
        else runResolver resolver nome nome
      else dados0.getD []
    ([("EAN", ean), ("NOME", if nome == "" then termo else nome)] ++ dados, true)

/-- The upper-cased, stripped column names of the input. -/
def normCols (df : DataFrame) : List String :=
  df.columns.map (fun c => pyStrip (pyUpper c))

def colsMissingMsg : String :=
  "A planilha precisa ter ao menos a coluna NOME ou EAN."

/-- The final column selection of pd.DataFrame(saida, columns=[...]): each
output row is the six fixed fields looked up in the row dict. -/
def outCells (d : Dict) : List (Option String) :=
  ["EAN", "NOME", "Preco", "Link", "Classificacao", "Observacao"].map
    (fun k => dget d k)

/-- processar_dataframe: normalize the column names, accept NOME or EAN
(a single otherwise-named column is renamed to NOME), raise otherwise, then
process every row in order with the per-row fallback and select the six
output columns. -/
def processar_dataframe (resolver : String → String → Except String Dict)
    (df : DataFrame) : Except String (List (List (Option String))) :=
  if !(normCols df).contains "EAN" && !(normCols df).contains "NOME" then
    if df.columns.length == 1 then
      .ok (df.rows.map (fun r => outCells (processRow resolver ["NOME"] r).1))
    else .error colsMissingMsg
  else .ok (df.rows.map (fun r => outCells (processRow resolver (normCols df) r).1))

/-- The resolver the source program uses: _consultar over a catalog, which
never raises (its only failure modes are swallowed inside). -/
def resolverOf (cat : Catalog) : String → String → Except String Dict :=
  fun t n => Except.ok (_consultar cat t n)

/-- The two candidates of the scoring tie-break scenario. -/
def exLong : Product := { productName := some "Paracetamol 750mg Extra Forte" }

def exShort : Product := { productName := some "Paracetamol 750mg" }

def exCandidates : List Product := [exLong, exShort]

/-- A catalog whose term search always finds one candidate. -/
def catW1 : Catalog where
  search_term := fun _ => Except.ok [exShort]
  search_ean := fun _ => Except.ok []

/-- A catalog on which every search comes back empty. -/
def catEmpty : Catalog where
  search_term := fun _ => Except.ok []
  search_ean := fun _ => Except.ok []

/-- The product of the code-search scenario. -/
def prodC8 : Product where
  productName := some "Analgesico Teste"
  linkText := some "analgesico-teste"
  categoryTree := some [some "Início", some "Medicamentos", some "Analgésicos"]
  items := [{ sellers := [{ commertialOffer := some { Price := some (1631 / 100) } }] }]

/-- A catalog with an empty term search and the scenario product under the
scenario code. -/
def catC8 : Catalog where
  search_term := fun _ => Except.ok []
  search_ean := fun t => if t == "7891058014684" then Except.ok [prodC8] else Except.ok []

/-- A resolver that always answers with the Sem resultados dict. -/
def resolverW3 : String → String → Except String Dict :=
  fun _ _ => Except.ok (notFoundD "Sem resultados")

def dfW3 : DataFrame := ⟨["EAN", "NOME"], [[some "7891", some "Produto X"]]⟩

def dfW4 : DataFrame := ⟨["EAN", "NOME"], [[some "123", none], [none, some "abc"]]⟩

/-- A resolver that raises on the first row of dfW4 and answers the rest. -/
def resolverW4 : String → String → Except String Dict :=
  fun t _ => if t == "123" then Except.error "boom"
    else Except.ok (notFoundD "Sem resultados")

def resolverW7a : String → String → Except String Dict :=
  fun _ _ => Except.ok (notFoundD "A")

def resolverW7b : String → String → Except String Dict :=
  fun _ _ => Except.error "B"

def dfW9 : DataFrame := ⟨["A", "B"], [[some "1", some "2"]]⟩

theorem keyLt_irrefl (ref : String) (p : Product) : ¬ keyLt ref p p := by
  unfold keyLt; omega

theorem keyLt_asymm (ref : String) (p q : Product) (h : keyLt ref p q) :
    ¬ keyLt ref q p := by
  unfold keyLt at *; omega

theorem keyLt_trans (ref : String) (p q r : Product) (h1 : keyLt ref p q)
    (h2 : keyLt ref q r) : keyLt ref p r := by
  unfold keyLt at *; omega

theorem keyLt_of_lt_of_not_lt (ref : String) (p q r : Product)
    (h1 : keyLt ref p q) (h2 : ¬ keyLt ref r q) : keyLt ref p r := by
  unfold keyLt at *; omega


theorem pick_cons (ref : String) (b q : Product) (qs : List Product) :
    pick ref b (q :: qs) = pick ref (if keyLt ref q b then q else b) qs := rfl

theorem pick_eq_or (ref : String) (ps : List Product) (b : Product) :
    pick ref b ps = b ∨ (pick ref b ps ∈ ps ∧ keyLt ref (pick ref b ps) b) := by
  induction ps generalizing b with
  | nil => left; rfl
  | cons q qs ih =>
    rw [pick_cons]
    by_cases h : keyLt ref q b
    · rw [if_pos h]
      rcases ih q with h1 | ⟨h1, h2⟩
      · right
        constructor
        · rw [h1]; exact List.mem_cons_self q qs
        · rw [h1]; exact h
      · exact Or.inr ⟨List.mem_cons_of_mem q h1, keyLt_trans ref _ q b h2 h⟩
    · rw [if_neg h]
      rcases ih b with h1 | ⟨h1, h2⟩
      · exact Or.inl h1
      · exact Or.inr ⟨List.mem_cons_of_mem q h1, h2⟩

theorem pick_min (ref : String) (ps : List Product) (b : Product) :
    ∀ r ∈ b :: ps, ¬ keyLt ref r (pick ref b ps) := by
  induction ps generalizing b with
  | nil =>
    intro r hr
    rw [List.mem_singleton] at hr
    subst hr
    exact keyLt_irrefl ref r
  | cons q qs ih =>
    intro r hr
    rw [pick_cons]
    by_cases h : keyLt ref q b
    · rw [if_pos h]
      rcases List.mem_cons.mp hr with heq | hr2
      · subst heq
        intro hcon
        rcases pick_eq_or ref qs q with h1 | ⟨_, h2⟩
        · rw [h1] at hcon; exact keyLt_asymm ref q _ h hcon
        · exact keyLt_asymm ref q _ h (keyLt_trans ref _ _ q hcon h2)
      · rcases List.mem_cons.mp hr2 with heq | hr3
        · subst heq
          exact ih _ _ (List.mem_cons_self _ _)
        · exact ih _ _ (List.mem_cons_of_mem _ hr3)
    · rw [if_neg h]
      rcases List.mem_cons.mp hr with heq | hr2
      · subst heq
        exact ih _ _ (List.mem_cons_self _ _)
      · rcases List.mem_cons.mp hr2 with heq | hr3
        · subst heq
          intro hcon
          rcases pick_eq_or ref qs b with h1 | ⟨_, h2⟩
          · rw [h1] at hcon; exact h hcon
          · exact h (keyLt_trans ref _ _ b hcon h2)
        · exact ih _ _ (List.mem_cons_of_mem _ hr3)

theorem pick_first (ref : String) (ps : List Product) (b : Product) :
    ∃ pre post, b :: ps = pre ++ pick ref b ps :: post ∧
      ∀ r ∈ pre, keyLt ref (pick ref b ps) r := by
  induction ps generalizing b with
  | nil => exact ⟨[], [], rfl, by simp⟩
  | cons q qs ih =>
    rw [pick_cons]
    by_cases h : keyLt ref q b
    · rw [if_pos h]
      obtain ⟨pre, post, heq, hpre⟩ := ih q
      refine ⟨b :: pre, post, ?_, ?_⟩
      · rw [List.cons_append, ← heq]
      · intro r hr
        rcases List.mem_cons.mp hr with heq2 | hr2
        · subst heq2
          rcases pick_eq_or ref qs q with h1 | ⟨_, h2⟩
          · rw [h1]; exact h
          · exact keyLt_trans ref _ q _ h2 h
        · exact hpre r hr2
    · rw [if_neg h]
      obtain ⟨pre, post, heq, hpre⟩ := ih b
      cases pre with
      | nil =>
        simp only [List.nil_append] at heq
        have hb : b = pick ref b qs := (List.cons.injEq _ _ _ _).mp heq |>.1
        refine ⟨[], q :: qs, ?_, by simp⟩
        rw [← hb]
        rfl
      | cons x pre2 =>
        have hx : x = b := ((List.cons.injEq _ _ _ _).mp heq.symm).1
        have hqs : qs = pre2 ++ pick ref b qs :: post :=
          ((List.cons.injEq _ _ _ _).mp heq).2
        have hmb : keyLt ref (pick ref b qs) b := by
          apply hpre
          rw [hx]
          exact List.mem_cons_self _ _
        refine ⟨b :: q :: pre2, post, ?_, ?_⟩
        · rw [List.cons_append, List.cons_append, ← hqs]
        · intro r hr
          rcases List.mem_cons.mp hr with heq2 | hr2
          · subst heq2; exact hmb
          · rcases List.mem_cons.mp hr2 with heq3 | hr3
            · subst heq3
              exact keyLt_of_lt_of_not_lt ref _ b _ hmb h
            · apply hpre
              rw [hx]
              exact List.mem_cons_of_mem _ hr3

/-- C2: _best_match returns none exactly on the empty list; otherwise it
returns a candidate that scores maximally (no candidate has a strictly
better key, where the key orders by greater token-overlap score, then by
shorter display name), and among the key-minimal candidates it is the first
in list order (every candidate before it is strictly worse); and on the
concrete tie-break scenario it selects the shorter "Paracetamol 750mg". -/
theorem best_match_spec :
    (∀ (l : List Product) (ref : String), _best_match l ref = none ↔ l = []) ∧
    (∀ (l : List Product) (ref : String) (q : Product),
      _best_match l ref = some q →
        q ∈ l ∧ (∀ r ∈ l, ¬ keyLt ref r q) ∧
        ∃ pre post, l = pre ++ q :: post ∧ ∀ r ∈ pre, keyLt ref q r) ∧
    _best_match exCandidates "paracetamol 750mg" = some exShort := by
  refine ⟨?_, ?_, ?_⟩
  · intro l ref
    cases l with
    | nil => simp [_best_match]
    | cons p ps => simp [_best_match]
  · intro l ref q hq
    cases l with
    | nil => simp [_best_match] at hq
    | cons p ps =>
      simp only [_best_match, Option.some.injEq] at hq
      subst hq
      refine ⟨?_, ?_, ?_⟩
      · rcases pick_eq_or ref ps p with h1 | ⟨h1, _⟩
        · rw [h1]; exact List.mem_cons_self p ps
        · exact List.mem_cons_of_mem p h1
      · exact pick_min ref ps p
      · exact pick_first ref ps p
  · decide

/-- Closed instance of best_match_spec at the tie-break scenario. -/
theorem best_match_spec_witness :
    _best_match exCandidates "paracetamol 750mg" = some exShort ∧
      exShort ∈ exCandidates := by
  have h := best_match_spec
  exact ⟨h.2.2, (h.2.1 exCandidates "paracetamol 750mg" exShort h.2.2).1⟩

theorem dict_shape_four (d : Dict)
    (h : d.map Prod.fst = ["Preco", "Link", "Classificacao", "Observacao"]) :
    ∃ p l c o : String,
      d = [("Preco", p), ("Link", l), ("Classificacao", c), ("Observacao", o)] := by
  cases d with
  | nil => simp at h
  | cons kv1 d1 =>
    cases d1 with
    | nil => simp at h
    | cons kv2 d2 =>
      cases d2 with
      | nil => simp at h
      | cons kv3 d3 =>
        cases d3 with
        | nil => simp at h
        | cons kv4 d4 =>
          cases d4 with
          | cons kv5 d5 => simp at h
          | nil =>
            obtain ⟨k1, v1⟩ := kv1
            obtain ⟨k2, v2⟩ := kv2
            obtain ⟨k3, v3⟩ := kv3
            obtain ⟨k4, v4⟩ := kv4
            simp only [List.map_cons, List.map_nil, List.cons.injEq, and_true] at h
            obtain ⟨h1, h2, h3, h4⟩ := h
            subst h1; subst h2; subst h3; subst h4
            exact ⟨v1, v2, v3, v4, rfl⟩

theorem consultar_keys (cat : Catalog) (termo nome_ref : String) :
    (_consultar cat termo nome_ref).map Prod.fst =
      ["Preco", "Link", "Classificacao", "Observacao"] := by
  unfold _consultar consultarT
  dsimp only
  repeat' split
  all_goals rfl

/-- C6: every result the Resolution Strategy produces, on every path, is a
dict with exactly the four fields Preco, Link, Classificacao and Observacao
in that order, each carrying a string value. -/
theorem consultar_result_fields (cat : Catalog) (termo nome_ref : String) :
    ∃ p l c o : String,
      _consultar cat termo nome_ref =
        [("Preco", p), ("Link", l), ("Classificacao", c), ("Observacao", o)] :=
  dict_shape_four _ (consultar_keys cat termo nome_ref)

theorem consultarT_snd (cat : Catalog) (termo nome_ref : String) :
    (consultarT cat termo nome_ref).2 =
      SCall.term (pyStrip termo) ::
        ((if (runSearch (cat.search_term (pyStrip termo))).isEmpty &&
              pyIsDigit (pyStrip termo) && decide (8 ≤ (pyStrip termo).length)
          then [SCall.ean (pyStrip termo)] else []) ++
         (if (if (runSearch (cat.search_term (pyStrip termo))).isEmpty &&
                  pyIsDigit (pyStrip termo) && decide (8 ≤ (pyStrip termo).length)
               then runSearch (cat.search_ean (pyStrip termo))
               else runSearch (cat.search_term (pyStrip termo))).isEmpty &&
              (_term_simplify (pyStrip termo) != pyStrip termo)
          then [SCall.term (_term_simplify (pyStrip termo))] else [])) := by
  unfold consultarT
  dsimp only
  repeat' split
  all_goals simp_all

/-- C1: the searches _consultar performs, in order: the term search always
runs first; the code search runs exactly when the term search yielded zero
candidates (or failed, which is observed as zero candidates) and the term is
all-digit of length at least eight; the simplified-term search runs exactly
when the candidates are still empty after that and simplification changed
the term; in particular a nonempty term search short-circuits both
fallbacks; and a catalog whose failures are replaced by empty successes
gives the identical outcome, so search exceptions are never propagated. -/
theorem consultar_fallback_order (cat : Catalog) (termo nome_ref : String) :
    ((consultarT cat termo nome_ref).2 =
      SCall.term (pyStrip termo) ::
        ((if runSearch (cat.search_term (pyStrip termo)) = [] ∧
              pyIsDigit (pyStrip termo) = true ∧ 8 ≤ (pyStrip termo).length
          then [SCall.ean (pyStrip termo)] else []) ++
         (if (if runSearch (cat.search_term (pyStrip termo)) = [] ∧
                  pyIsDigit (pyStrip termo) = true ∧ 8 ≤ (pyStrip termo).length
               then runSearch (cat.search_ean (pyStrip termo))
               else runSearch (cat.search_term (pyStrip termo))) = [] ∧
              _term_simplify (pyStrip termo) ≠ pyStrip termo
          then [SCall.term (_term_simplify (pyStrip termo))] else []))) ∧
    (runSearch (cat.search_term (pyStrip termo)) ≠ [] →
      (consultarT cat termo nome_ref).2 = [SCall.term (pyStrip termo)]) ∧
    consultarT cat termo nome_ref = consultarT (totalize cat) termo nome_ref := by
  refine ⟨?_, ?_, rfl⟩
  · rw [consultarT_snd]
    by_cases h1 : runSearch (cat.search_term (pyStrip termo)) = [] <;>
    by_cases hd : pyIsDigit (pyStrip termo) <;>
    by_cases hl : 8 ≤ (pyStrip termo).length <;>
    by_cases h4 : _term_simplify (pyStrip termo) = pyStrip termo <;>
    by_cases he : runSearch (cat.search_ean (pyStrip termo)) = [] <;>
    simp_all
  · intro h1
    rw [consultarT_snd]
    simp_all

/-- Closed instance of consultar_fallback_order: with a nonempty term search
the trace is the single term search. -/
theorem consultar_fallback_order_witness :
    (consultarT catW1 "abc" "").2 = [SCall.term "abc"] := by
  have h := (consultar_fallback_order catW1 "abc" "").2.1
  have hne : runSearch (catW1.search_term (pyStrip "abc")) ≠ [] := by decide
  simpa using h hne

/-- C5: when every attempted search yields no candidates, _consultar returns
(never raises) exactly the Sem resultados dict. -/
theorem consultar_all_empty (cat : Catalog) (termo nome_ref : String)
    (h1 : runSearch (cat.search_term (pyStrip termo)) = [])
    (h2 : runSearch (cat.search_ean (pyStrip termo)) = [])
    (h3 : runSearch (cat.search_term (_term_simplify (pyStrip termo))) = []) :
    _consultar cat termo nome_ref =
      [("Preco", "Produto não encontrado"), ("Link", ""), ("Classificacao", "—"),
       ("Observacao", "Sem resultados")] := by
  unfold _consultar consultarT
  dsimp only
  repeat' split
  all_goals simp_all [notFoundD]

/-- Closed instance of consultar_all_empty at the spec scenario input. -/
theorem consultar_all_empty_witness :
    _consultar catEmpty "xyzyx-nonexistent-item" "" =
      [("Preco", "Produto não encontrado"), ("Link", ""), ("Classificacao", "—"),
       ("Observacao", "Sem resultados")] :=
  consultar_all_empty catEmpty "xyzyx-nonexistent-item" "" rfl rfl rfl

/-- C8: with code 7891058014684 and empty name, a term search that yields
nothing and a code search that yields exactly one product priced 16.31 with
category path Início, Medicamentos, Analgésicos, the result formats the
price as pt-BR currency and the breadcrumb excludes the home segment. -/
theorem consultar_code_scenario (cat : Catalog) (p : Product)
    (hp : p.categoryTree = some [some "Início", some "Medicamentos", some "Analgésicos"])
    (hprice : _price_from_product p = 1631 / 100)
    (h1 : runSearch (cat.search_term "7891058014684") = [])
    (h2 : runSearch (cat.search_ean "7891058014684") = [p]) :
    dget (_consultar cat "7891058014684" "") "Preco" = some "R$ 16,31" ∧
    dget (_consultar cat "7891058014684" "") "Classificacao" =
      some "Medicamentos > Analgésicos" := by
  have e1 : _breadcrumb p = "Medicamentos > Analgésicos" := by
    unfold _breadcrumb
    rw [hp]
    rfl
  have e2 : _preco_br (_price_from_product p) = "R$ 16,31" := by
    rw [hprice]
    unfold _preco_br
    rw [show ⌊((1631 : ℚ) / 100 * 100 + 1 / 2)⌋ = 1631 by norm_num]
    decide
  have hstrip : pyStrip "7891058014684" = "7891058014684" := rfl
  have dd : pyIsDigit "7891058014684" = true := by decide
  have dl : 8 ≤ ("7891058014684" : String).length := by decide
  have ds : _term_simplify "7891058014684" = "7891058014684" := by decide
  unfold _consultar consultarT
  dsimp only
  rw [hstrip, h1, h2]
  simp [_best_match, pick, dget, e1, e2, dd, dl, ds]

/-- Closed instance of consultar_code_scenario. -/
theorem consultar_code_scenario_witness :
    dget (_consultar catC8 "7891058014684" "") "Preco" = some "R$ 16,31" ∧
    dget (_consultar catC8 "7891058014684" "") "Classificacao" =
      some "Medicamentos > Analgésicos" :=
  consultar_code_scenario catC8 prodC8 rfl rfl rfl rfl

theorem containsIffMem (l : List String) (a : String) : l.contains a = true ↔ a ∈ l :=
  ⟨List.mem_of_elem_eq_true, List.elem_eq_true_of_mem⟩

theorem containsEqFalse (l : List String) (a : String) (h : a ∉ l) :
    l.contains a = false := by
  cases hc : l.contains a
  · rfl
  · exact absurd ((containsIffMem l a).mp hc) h

/-- C7: a batch row whose cleaned Code and cleaned Name are both empty
produces the fixed Linha vazia row, the same for any two resolutions of the
catalog call (no search is consulted), and the inter-row pause is skipped
(the second component of processRow is the pause flag). -/
theorem processar_empty_row (resolver resolver' : String → String → Except String Dict)
    (cols : List String) (row : List (Option String))
    (he : _limpa (rowGet cols row "EAN") = "")
    (hn : _limpa (rowGet cols row "NOME") = "") :
    processRow resolver cols row =
      ([("EAN", ""), ("NOME", ""), ("Preco", "Produto não encontrado"),
        ("Link", ""), ("Classificacao", "—"), ("Observacao", "Linha vazia")], false) ∧
    processRow resolver cols row = processRow resolver' cols row := by
  constructor
  · unfold processRow
    simp [he, hn, notFoundD]
  · unfold processRow
    simp [he, hn]

/-- C9: a batch input with neither an EAN nor a NOME column (after column
normalization) and not exactly one column raises the missing-columns error
before any row is touched: the outcome is the same for every resolver and
every row list. -/
theorem processar_missing_columns (df : DataFrame)
    (h1 : "EAN" ∉ normCols df) (h2 : "NOME" ∉ normCols df)
    (h3 : df.columns.length ≠ 1) :
    ∀ (resolver : String → String → Except String Dict)
      (rows : List (List (Option String))),
      processar_dataframe resolver ⟨df.columns, rows⟩ = Except.error colsMissingMsg := by
  intro resolver rows
  have hE : (normCols ⟨df.columns, rows⟩).contains "EAN" = false := containsEqFalse _ _ h1
  have hN : (normCols ⟨df.columns, rows⟩).contains "NOME" = false := containsEqFalse _ _ h2
  unfold processar_dataframe
  rw [hE, hN]
  simp [h3]

/-- C10: with a single column named neither EAN nor NOME, processar_dataframe
does not raise: it treats that column as NOME and resolves every row by
name, agreeing with the same input under a NOME header; and the
missing-columns error occurs exactly when both named columns are absent and
the column count differs from one. -/
theorem processar_single_column (resolver : String → String → Except String Dict)
    (c : String) (rows : List (List (Option String)))
    (h1 : pyStrip (pyUpper c) ≠ "EAN") (h2 : pyStrip (pyUpper c) ≠ "NOME") :
    processar_dataframe resolver ⟨[c], rows⟩ =
      Except.ok (rows.map (fun r => outCells (processRow resolver ["NOME"] r).1)) ∧
    processar_dataframe resolver ⟨[c], rows⟩ =
      processar_dataframe resolver ⟨["NOME"], rows⟩ ∧
    (∀ df : DataFrame,
      (∃ e, processar_dataframe resolver df = Except.error e) ↔
        ("EAN" ∉ normCols df ∧ "NOME" ∉ normCols df ∧ df.columns.length ≠ 1)) := by
  have hcols : normCols ⟨[c], rows⟩ = [pyStrip (pyUpper c)] := rfl
  have hmE : "EAN" ∉ normCols (⟨[c], rows⟩ : DataFrame) := by
    rw [hcols]; simp [Ne.symm h1]
  have hmN : "NOME" ∉ normCols (⟨[c], rows⟩ : DataFrame) := by
    rw [hcols]; simp [Ne.symm h2]
  have hE := containsEqFalse _ _ hmE
  have hN := containsEqFalse _ _ hmN
  have hfst : processar_dataframe resolver ⟨[c], rows⟩ =
      Except.ok (rows.map (fun r => outCells (processRow resolver ["NOME"] r).1)) := by
    unfold processar_dataframe
    rw [hE, hN]
    simp
  refine ⟨hfst, ?_, ?_⟩
  · have hR : processar_dataframe resolver ⟨["NOME"], rows⟩ =
        Except.ok (rows.map (fun r => outCells (processRow resolver ["NOME"] r).1)) := rfl
    rw [hfst, hR]
  · intro df
    constructor
    · rintro ⟨e, he⟩
      unfold processar_dataframe at he
      by_cases dE : "EAN" ∈ normCols df
      · rw [(containsIffMem _ _).mpr dE] at he
        simp at he
      · by_cases dN : "NOME" ∈ normCols df
        · rw [containsEqFalse _ _ dE, (containsIffMem _ _).mpr dN] at he
          simp at he
        · rw [containsEqFalse _ _ dE, containsEqFalse _ _ dN] at he
          by_cases dl : df.columns.length = 1
          · simp [dl] at he
          · exact ⟨dE, dN, dl⟩
    · rintro ⟨dE, dN, dl⟩
      refine ⟨colsMissingMsg, ?_⟩
      unfold processar_dataframe
      rw [containsEqFalse _ _ dE, containsEqFalse _ _ dN]
      simp [dl]

theorem runResolver_keys (resolver : String → String → Except String Dict)
    (hres : ∀ t n d, resolver t n = Except.ok d →
      d.map Prod.fst = ["Preco", "Link", "Classificacao", "Observacao"])
    (t n : String) :
    (runResolver resolver t n).map Prod.fst =
      ["Preco", "Link", "Classificacao", "Observacao"] := by
  unfold runResolver
  cases h : resolver t n with
  | ok d => exact hres t n d h
  | error e => rfl

theorem processRow_shape (resolver : String → String → Except String Dict)
    (hres : ∀ t n d, resolver t n = Except.ok d →
      d.map Prod.fst = ["Preco", "Link", "Classificacao", "Observacao"])
    (cols : List String) (row : List (Option String)) :
    ∃ d4 : Dict, d4.map Prod.fst = ["Preco", "Link", "Classificacao", "Observacao"] ∧
      (processRow resolver cols row).1 =
        ("EAN", _limpa (rowGet cols row "EAN")) ::
          ("NOME", if _limpa (rowGet cols row "NOME") == "" then
              _limpa (rowGet cols row "EAN")
            else _limpa (rowGet cols row "NOME")) :: d4 := by
  unfold processRow
  by_cases hE : _limpa (rowGet cols row "EAN") = ""
  · by_cases hN : _limpa (rowGet cols row "NOME") = ""
    · exact ⟨notFoundD "Linha vazia", rfl, by simp [hE, hN, notFoundD]⟩
    · refine ⟨runResolver resolver (_limpa (rowGet cols row "NOME"))
        (_limpa (rowGet cols row "NOME")), runResolver_keys resolver hres _ _, ?_⟩
      simp [hE, hN]
  · by_cases hN : _limpa (rowGet cols row "NOME") = ""
    · refine ⟨runResolver resolver (_limpa (rowGet cols row "EAN"))
        (_limpa (rowGet cols row "EAN")), runResolver_keys resolver hres _ _, ?_⟩
      simp [hE, hN]
    · by_cases hP : dget (runResolver resolver (_limpa (rowGet cols row "EAN"))
          (_limpa (rowGet cols row "NOME"))) "Preco" = some "Produto não encontrado"
      · refine ⟨runResolver resolver (_limpa (rowGet cols row "NOME"))
          (_limpa (rowGet cols row "NOME")), runResolver_keys resolver hres _ _, ?_⟩
        simp [hE, hN, hP]
      · refine ⟨runResolver resolver (_limpa (rowGet cols row "EAN"))
          (_limpa (rowGet cols row "NOME")), runResolver_keys resolver hres _ _, ?_⟩
        simp [hE, hN, hP]

theorem outCells_shape (ean nv : String) (d4 : Dict)
    (h : d4.map Prod.fst = ["Preco", "Link", "Classificacao", "Observacao"]) :
    ∃ p l cf o : String,
      outCells (("EAN", ean) :: ("NOME", nv) :: d4) =
        [some ean, some nv, some p, some l, some cf, some o] := by
  obtain ⟨p, l, cf, o, rfl⟩ := dict_shape_four d4 h
  exact ⟨p, l, cf, o, rfl⟩

/-- C3: with a NOME or EAN column present and a resolver producing the four
result fields, processar_dataframe succeeds with exactly one output row per
input row, output row i computed from input row i alone, each output row
carrying exactly the six fixed fields (all present), with the NOME field
defaulted to the resolved term (the cleaned code) when the cleaned name is
blank. -/
theorem processar_row_order (resolver : String → String → Except String Dict)
    (df : DataFrame)
    (hcols : "EAN" ∈ normCols df ∨ "NOME" ∈ normCols df)
    (hres : ∀ t n d, resolver t n = Except.ok d →
      d.map Prod.fst = ["Preco", "Link", "Classificacao", "Observacao"]) :
    ∃ out, processar_dataframe resolver df = Except.ok out ∧
      out.length = df.rows.length ∧
      (∀ i (hi : i < df.rows.length) (ho : i < out.length),
        out.get ⟨i, ho⟩ =
          outCells (processRow resolver (normCols df) (df.rows.get ⟨i, hi⟩)).1) ∧
      (∀ row ∈ df.rows, ∃ p l cf o : String,
        outCells (processRow resolver (normCols df) row).1 =
          [some (_limpa (rowGet (normCols df) row "EAN")),
           some (if _limpa (rowGet (normCols df) row "NOME") == "" then
                   _limpa (rowGet (normCols df) row "EAN")
                 else _limpa (rowGet (normCols df) row "NOME")),
           some p, some l, some cf, some o]) := by
  have hcond : (!(normCols df).contains "EAN" && !(normCols df).contains "NOME") = false := by
    rcases hcols with h | h
    · rw [(containsIffMem _ _).mpr h]; rfl
    · rw [(containsIffMem _ _).mpr h]; simp
  refine ⟨df.rows.map (fun r => outCells (processRow resolver (normCols df) r).1),
    ?_, by simp, ?_, ?_⟩
  · unfold processar_dataframe
    rw [hcond]
    rfl
  · intro i hi ho
    simp [List.getElem_map]
  · intro row _
    obtain ⟨d4, hk, heq⟩ := processRow_shape resolver hres (normCols df) row
    obtain ⟨p, l, cf, o, h6⟩ := outCells_shape _ _ d4 hk
    exact ⟨p, l, cf, o, by rw [heq, h6]⟩

theorem processRow_error_code (resolver : String → String → Except String Dict)
    (cols : List String) (row : List (Option String)) (m : String)
    (hE : _limpa (rowGet cols row "EAN") ≠ "")
    (hN : _limpa (rowGet cols row "NOME") = "")
    (hr : resolver (_limpa (rowGet cols row "EAN"))
      (_limpa (rowGet cols row "EAN")) = Except.error m) :
    (processRow resolver cols row).1 =
      ("EAN", _limpa (rowGet cols row "EAN")) ::
        ("NOME", _limpa (rowGet cols row "EAN")) :: erroD m := by
  unfold processRow
  simp [hE, hN, runResolver, hr, erroD, dget]

theorem processRow_error_name (resolver : String → String → Except String Dict)
    (cols : List String) (row : List (Option String)) (m : String)
    (hN : _limpa (rowGet cols row "NOME") ≠ "")
    (hr : resolver (_limpa (rowGet cols row "NOME"))
      (_limpa (rowGet cols row "NOME")) = Except.error m)
    (hretry : _limpa (rowGet cols row "EAN") = "" ∨
      dget (runResolver resolver (_limpa (rowGet cols row "EAN"))
        (_limpa (rowGet cols row "NOME"))) "Preco" = some "Produto não encontrado") :
    (processRow resolver cols row).1 =
      ("EAN", _limpa (rowGet cols row "EAN")) ::
        ("NOME", _limpa (rowGet cols row "NOME")) :: erroD m := by
  unfold processRow
  by_cases hE : _limpa (rowGet cols row "EAN") = ""
  · simp [hE, hN, runResolver, hr]
  · rcases hretry with h | h
    · exact absurd h hE
    · unfold runResolver at h
      simp [hE, hN, h, runResolver, hr]

/-- C4: with a NOME or EAN column present, the batch never fails (the result
is ok for every resolver), each output row is a function of its own input
row alone, and a row whose applicable resolution call raises is converted to
a row carrying Erro plus the raised message and the not-found sentinels,
both when the code path raises with no name to retry and when the name
retry raises. -/
theorem processar_error_isolation (resolver : String → String → Except String Dict)
    (df : DataFrame)
    (hcols : "EAN" ∈ normCols df ∨ "NOME" ∈ normCols df) :
    ∃ out, processar_dataframe resolver df = Except.ok out ∧
      out.length = df.rows.length ∧
      (∀ i (hi : i < df.rows.length) (ho : i < out.length),
        out.get ⟨i, ho⟩ =
          outCells (processRow resolver (normCols df) (df.rows.get ⟨i, hi⟩)).1) ∧
      (∀ (row : List (Option String)) (m : String),
        (_limpa (rowGet (normCols df) row "EAN") ≠ "" →
         _limpa (rowGet (normCols df) row "NOME") = "" →
         resolver (_limpa (rowGet (normCols df) row "EAN"))
             (_limpa (rowGet (normCols df) row "EAN")) = Except.error m →
         outCells (processRow resolver (normCols df) row).1 =
           [some (_limpa (rowGet (normCols df) row "EAN")),
            some (_limpa (rowGet (normCols df) row "EAN")),
            some "Produto não encontrado", some "", some "—",
            some ("Erro: " ++ m)]) ∧
        (_limpa (rowGet (normCols df) row "NOME") ≠ "" →
         resolver (_limpa (rowGet (normCols df) row "NOME"))
             (_limpa (rowGet (normCols df) row "NOME")) = Except.error m →
         (_limpa (rowGet (normCols df) row "EAN") = "" ∨
          dget (runResolver resolver (_limpa (rowGet (normCols df) row "EAN"))
            (_limpa (rowGet (normCols df) row "NOME"))) "Preco" =
              some "Produto não encontrado") →
         outCells (processRow resolver (normCols df) row).1 =
           [some (_limpa (rowGet (normCols df) row "EAN")),
            some (_limpa (rowGet (normCols df) row "NOME")),
            some "Produto não encontrado", some "", some "—",
            some ("Erro: " ++ m)])) := by
  have hcond : (!(normCols df).contains "EAN" && !(normCols df).contains "NOME") = false := by
    rcases hcols with h | h
    · rw [(containsIffMem _ _).mpr h]; rfl
    · rw [(containsIffMem _ _).mpr h]; simp
  refine ⟨df.rows.map (fun r => outCells (processRow resolver (normCols df) r).1),
    ?_, by simp, ?_, ?_⟩
  · unfold processar_dataframe
    rw [hcond]
    rfl
  · intro i hi ho
    simp [List.getElem_map]
  · intro row m
    constructor
    · intro hE hN hr
      rw [processRow_error_code resolver _ row m hE hN hr]
      rfl
    · intro hN hr hretry
      rw [processRow_error_name resolver _ row m hN hr hretry]
      rfl

/-- Closed instance of processar_row_order on a one-row frame. -/
theorem processar_row_order_witness :
    ∃ out, processar_dataframe resolverW3 dfW3 = Except.ok out ∧ out.length = 1 := by
  obtain ⟨out, h1, h2, _, _⟩ := processar_row_order resolverW3 dfW3
    (Or.inl (by decide))
    (fun t n d h => by injection h with h2; rw [← h2]; rfl)
  refine ⟨out, h1, ?_⟩
  rw [h2]
  rfl

/-- Closed instance of processar_error_isolation: the raising row becomes an
Erro row while the batch still succeeds with both rows. -/
theorem processar_error_isolation_witness :
    ∃ out, processar_dataframe resolverW4 dfW4 = Except.ok out ∧
      out.length = 2 ∧
      outCells (processRow resolverW4 (normCols dfW4) [some "123", none]).1 =
        [some "123", some "123", some "Produto não encontrado", some "",
         some "—", some "Erro: boom"] := by
  obtain ⟨out, h1, h2, _, h4⟩ := processar_error_isolation resolverW4 dfW4
    (Or.inl (by decide))
  refine ⟨out, h1, by rw [h2]; rfl, ?_⟩
  exact (h4 [some "123", none] "boom").1 (by decide) (by decide) rfl

/-- Closed instance of processar_empty_row: a row with a missing code cell
and a nan name cell short-circuits identically under two resolvers. -/
theorem processar_empty_row_witness :
    processRow resolverW7a ["EAN", "NOME"] [none, some "nan"] =
      ([("EAN", ""), ("NOME", ""), ("Preco", "Produto não encontrado"),
        ("Link", ""), ("Classificacao", "—"), ("Observacao", "Linha vazia")], false) ∧
    processRow resolverW7a ["EAN", "NOME"] [none, some "nan"] =
      processRow resolverW7b ["EAN", "NOME"] [none, some "nan"] :=
  processar_empty_row resolverW7a resolverW7b ["EAN", "NOME"] [none, some "nan"]
    (by decide) (by decide)

/-- Closed instance of processar_missing_columns. -/
theorem processar_missing_columns_witness :
    processar_dataframe resolverW7a ⟨dfW9.columns, dfW9.rows⟩ =
      Except.error colsMissingMsg :=
  processar_missing_columns dfW9 (by decide) (by decide) (by decide)
    resolverW7a dfW9.rows

/-- Closed instance of processar_single_column: one otherwise-named column
behaves like a NOME column. -/
theorem processar_single_column_witness :
    processar_dataframe resolverW3 ⟨["Produto"], [[some "abc"]]⟩ =
      processar_dataframe resolverW3 ⟨["NOME"], [[some "abc"]]⟩ :=
  (processar_single_column resolverW3 "Produto" [[some "abc"]]
    (by decide) (by decide)).2.1
